import Mathlib

/-!
Verification development for the LCD-Reader repository.

The repository ships a React dashboard (`frontend/src/App.tsx`) for a
video-to-report propulsion-test pipeline, together with documentation of a
FastAPI backend.  The dashboard state machine (file picking, upload start,
task polling, result display) is embedded shallowly below, translated
directly from `App.tsx`.  Backend components that the repository documents
but whose code is not present (intake validation, StreamExtractor progress,
SeriesMerger, MetricsComputer, DigitReader) are modelled from the
specification and are marked as such in their doc comments.

JavaScript numbers are embedded as `ℚ`, JavaScript strings as `String`,
nullable values as `Option`, and JavaScript truthiness of strings is made
explicit (`jsTruthy`).
-/

/-- The three upload channels, `type TabKey = "current" | "thrust" | "rpm"`
in `App.tsx`. -/
inductive TabKey : Type
  | current
  | thrust
  | rpm
deriving DecidableEq, Repr

/-- Per-channel UI state, `interface TaskState` in `App.tsx`: the picked
file (modelled by its name), the backend task id, and the displayed
progress. -/
structure TaskState : Type where
  file : Option String
  taskId : Option String
  progress : ℚ
deriving DecidableEq, Repr

/-- The metadata text fields, `interface MetaState` in `App.tsx`. -/
structure MetaState : Type where
  prop : String
  motor : String
  esc : String
  voltage : String
deriving DecidableEq, Repr

/-- Whole dashboard state: metadata, selected fps, session id, the three
channels' task states, and the displayed session report (table rows are
kept abstract as the raw row payloads the client stores untouched). -/
structure UIState : Type where
  meta : MetaState
  fps : ℕ
  sessionId : Option String
  tasks : TabKey → TaskState
  tableRows : List String
  graphs : List String
  csvUrl : Option String

/-- The backend base URL, `const backend` in `App.tsx`. -/
def backendUrl : String := "http://127.0.0.1:8000"

/-- JavaScript truthiness of a string: only the empty string is falsy.
`App.tsx` uses it in `if (sessionId)` and `rep.csv_url ? ... : null`. -/
def jsTruthy (s : String) : Bool := s != ""

/-- The FPS values offered by the selector in `InputRow`:
`[...Array(10)].map((_, i) => <option value={i + 1}>)`. -/
def fpsOptions : List ℕ := (List.range 10).map (· + 1)

/-- The initial fps state, `useState<number>(5)` in `App.tsx`. -/
def fpsDefault : ℕ := 5

/-- The fps values the UI state can ever hold: the default from
`useState(5)`, or a value selected from `fpsOptions` via
`setFps(Number(e.target.value))`. -/
inductive FpsReachable : ℕ → Prop
  | start : FpsReachable fpsDefault
  | select (v : ℕ) (h : v ∈ fpsOptions) : FpsReachable v

/-- Modelled from the spec: the upload intake's sampling-rate check is not
in `src/` (only the backend README documents it).  §6: "Fails with
InvalidConfig if sampling_rate outside [1,10]". -/
inductive IntakeError : Type
  | InvalidConfig
deriving DecidableEq, Repr

/-- Modelled from the spec: intake validation of the sampling rate; returns
`some InvalidConfig` exactly when the rate is outside [1,10]. -/
def validateSamplingRate (rate : ℕ) : Option IntakeError :=
  if 1 ≤ rate ∧ rate ≤ 10 then none else some IntakeError.InvalidConfig

/-- One `progress/{taskId}` JSON response as read by `pollTask`:
`p.status`, `p.progress`, `p.error`, each possibly absent. -/
structure PollResponse : Type where
  status : Option String
  progress : Option ℚ
  error : Option String
deriving DecidableEq, Repr

/-- The stopping test of `pollTask`:
`p.status === "done" || p.progress >= 100` (in JavaScript an absent
`progress` compares false). -/
def isTerminal (p : PollResponse) : Bool :=
  p.status == some "done" ||
    (match p.progress with
     | some v => decide (100 ≤ v)
     | none => false)

/-- What one timer tick of `pollTask` does with a poll response: the
progress it stores (`p.progress ?? 0`), whether it clears the interval and
whether it fetches the session result (both exactly on the terminal test),
and the error detail it surfaces to the user.  `pollTask` reads only
`p.status` and `p.progress`; it never reads `p.error`, so the surfaced
error is always `none`. -/
structure PollStepOut : Type where
  progress : ℚ
  stopPolling : Bool
  fetchResult : Bool
  surfacedError : Option String
deriving DecidableEq, Repr

/-- One timer tick of `pollTask` (`App.tsx` lines 146–165), as a pure
function of the poll response. -/
def pollStep (p : PollResponse) : PollStepOut :=
  { progress := p.progress.getD 0
    stopPolling := isTerminal p
    fetchResult := isTerminal p
    surfacedError := none }

/-- The sequence of progress values held by the client while a list of
poll responses arrives, starting from the stored value `init` (0 right
after `startUpload`): each tick overwrites the stored value with the one
computed by `pollStep`. -/
def storedTrace (init : ℚ) : List PollResponse → List ℚ
  | [] => [init]
  | p :: ps => init :: storedTrace ((pollStep p).progress) ps

/-- How many times the polling loop fetches the session result, given the
stream of responses it would receive: it processes responses in order,
stopping at the first terminal one (where `clearInterval` runs), and
fetches exactly when `pollStep` says so. -/
def pollFetches : List PollResponse → ℕ
  | [] => 0
  | p :: rest =>
      if (pollStep p).stopPolling then
        (if (pollStep p).fetchResult then 1 else 0)
      else pollFetches rest

/-- The `session/{sess}/result` JSON response as read by `pollTask`:
`repRes.ok`, `rep.table`, `rep.graphs`, `rep.csv_url`. -/
structure ResultResponse : Type where
  ok : Bool
  table : Option (List String)
  graphs : Option (List String)
  csv_url : Option String
deriving DecidableEq, Repr

/-- What `pollTask` does with the result fetch (`App.tsx` lines 154–160):
when `repRes.ok`, it stores `rep.table || []`, prefixes every graph path
with the backend URL, and stores the csv URL only when `rep.csv_url` is
truthy; otherwise the state is untouched. -/
def applyResult (st : UIState) (resp : ResultResponse) : UIState :=
  if resp.ok then
    { st with
        tableRows := resp.table.getD []
        graphs := (resp.graphs.getD []).map (fun g => backendUrl ++ g)
        csvUrl :=
          match resp.csv_url with
          | some s => if jsTruthy s then some (backendUrl ++ s) else none
          | none => none }
  else st

/-- `handleFilePick` (`App.tsx` lines 194–196): store the picked file on
channel `t`, leaving everything else alone. -/
def handleFilePick (t : TabKey) (f : Option String) (st : UIState) : UIState :=
  { st with
      tasks := fun u => if u = t then { st.tasks t with file := f } else st.tasks u }

/-- The multipart form built by `startUpload` (`App.tsx` lines 205–215).
`session_id` is appended only when the stored session id is truthy
(`if (sessionId) form.append("session_id", sessionId)`); fps is sent as
`fps.toString()`. -/
structure UploadForm : Type where
  file : String
  video_type : TabKey
  session_id : Option String
  prop : String
  motor : String
  esc : String
  voltage : String
  fps : String
deriving DecidableEq, Repr

/-- Build the upload form from the UI state for channel `t`, with `f` the
(present) selected file. -/
def buildForm (st : UIState) (t : TabKey) (f : String) : UploadForm :=
  { file := f
    video_type := t
    session_id :=
      match st.sessionId with
      | some s => if jsTruthy s then some s else none
      | none => none
    prop := st.meta.prop
    motor := st.meta.motor
    esc := st.meta.esc
    voltage := st.meta.voltage
    fps := toString st.fps }

/-- The `/start` JSON response as read by `startUpload`:
`data.session_id` and `data.task_id`. -/
structure StartResponse : Type where
  session_id : String
  task_id : String
deriving DecidableEq, Repr

/-- The externally visible effects of one `startUpload` call: the request
posted (if any) and whether the user was alerted. -/
structure StartEffect : Type where
  request : Option UploadForm
  alerted : Bool
deriving DecidableEq, Repr

/-- `startUpload` (`App.tsx` lines 198–231) as a state transition.
`outcome` is the network outcome of the `/start` POST: `none` models a
failed fetch (the catch branch alerts and changes nothing), `some resp` a
parsed response.  With no file selected, the function alerts and returns
before building any request.  On success it stores the returned session id
and sets channel `t`'s task id with progress 0. -/
def startUploadStep (t : TabKey) (st : UIState) (outcome : Option StartResponse) :
    UIState × StartEffect :=
  match (st.tasks t).file with
  | none => (st, { request := none, alerted := true })
  | some f =>
      let form := buildForm st t f
      match outcome with
      | none => (st, { request := some form, alerted := true })
      | some resp =>
          ({ st with
              sessionId := some resp.session_id
              tasks := fun u =>
                if u = t then
                  { st.tasks t with taskId := some resp.task_id, progress := 0 }
                else st.tasks u },
           { request := some form, alerted := false })

/-- Modelled from the spec: the StreamExtractor (not in `src/`) "reports
fractional progress = frames processed / total expected frames × 100,
monotonically non-decreasing, clamped to [0,100]" (§4.3).  `total` is the
expected frame count, `done` the frames processed so far. -/
def specProgress (total done : ℕ) : ℚ :=
  min 100 ((100 * (done : ℚ)) / (total : ℚ))

/-- Modelled from the spec: MetricsComputer (not in `src/`), §4.6:
"power = voltage × current when both non-null, else null". -/
def computePower (voltage current : Option ℚ) : Option ℚ :=
  match voltage, current with
  | some v, some c => some (v * c)
  | _, _ => none

/-- Modelled from the spec: MetricsComputer (not in `src/`), §4.6:
"efficiency = thrust / power when power is non-null and > 0, else null" —
never a divide-by-zero. -/
def computeEfficiency (thrust power : Option ℚ) : Option ℚ :=
  match thrust, power with
  | some t, some p => if 0 < p then some (t / p) else none
  | _, _ => none

/-- Modelled from the spec: a Reading (§3) of one channel, a timestamp
offset in seconds together with a numeric value or the "unreadable"
marker (`none`). -/
structure Reading : Type where
  t : ℚ
  value : Option ℚ
deriving DecidableEq, Repr

/-- Modelled from the spec: one merged output row of SeriesMerger (not in
`src/`), restricted to the three channel fields the merge itself fills. -/
structure MergedRowM : Type where
  time : ℚ
  current : Option ℚ
  thrust : Option ℚ
  rpm : Option ℚ
deriving DecidableEq, Repr

/-- The per-channel sequences actually present in a session (0–3 of
them). -/
def chanLists (cur thr rpm : Option (List Reading)) : List (List Reading) :=
  [cur, thr, rpm].filterMap id

/-- The longest of a list of channels (the reference grid source);
`[]` when no channel is present. -/
def longestList (ls : List (List Reading)) : List Reading :=
  ls.foldl (fun acc l => if acc.length < l.length then l else acc) []

/-- Modelled from the spec: nearest-available reading to reference time
`t` within the tolerance window `tol` (§4.5: "take the nearest-available
reading per channel within a tolerance window of half the sampling
interval, else mark that field null"). -/
def nearestWithin (tol : ℚ) (t : ℚ) (rs : List Reading) : Option Reading :=
  rs.foldl
    (fun best r =>
      if |r.t - t| ≤ tol then
        match best with
        | none => some r
        | some b => if |r.t - t| < |b.t - t| then some r else some b
      else best)
    none

/-- The field a channel contributes at reference time `t`: `none` when the
channel is absent, when no reading falls within tolerance, or when the
nearest reading is unreadable. -/
def sampleChan (tol t : ℚ) (chan : Option (List Reading)) : Option ℚ :=
  match chan with
  | none => none
  | some rs =>
      match nearestWithin tol t rs with
      | none => none
      | some r => r.value

/-- Modelled from the spec: SeriesMerger (not in `src/`), §4.5.  The
reference grid is the longest present channel's timestamps (the testable
property of §8 fixes the output row count to the longest channel's count);
each row samples every channel at the reference time within tolerance. -/
def mergeSeries (tol : ℚ) (cur thr rpm : Option (List Reading)) : List MergedRowM :=
  (longestList (chanLists cur thr rpm)).map
    (fun g =>
      { time := g.t
        current := sampleChan tol g.t cur
        thrust := sampleChan tol g.t thr
        rpm := sampleChan tol g.t rpm })

/-- The reading count of an optionally present channel (0 when absent). -/
def chanLen (chan : Option (List Reading)) : ℕ :=
  match chan with
  | none => 0
  | some rs => rs.length

/-- A channel of `n` readings at 1-second spacing, used as a concrete
merge fixture. -/
def mkChan (n : ℕ) : List Reading :=
  (List.range n).map (fun (i : ℕ) => { t := (i : ℚ), value := some 0 })

/-- Modelled from the spec: a frame image handed to DigitReader (not in
`src/`), kept abstract as its pixel payload. -/
structure Frame : Type where
  data : List ℕ
deriving DecidableEq, Repr

/-- Modelled from the spec: the instrument-display bounding area. -/
structure Region : Type where
  x : ℕ
  y : ℕ
  w : ℕ
  h : ℕ
deriving DecidableEq, Repr

/-- Modelled from the spec: the region hint passed to DigitReader ("may
be the whole frame", i.e. absent). -/
def RegionHint : Type := Option Region

/-- Modelled from the spec: the outcome of DigitReader §4.2 — a numeric
reading or an explicit "unreadable", never a default 0. -/
inductive ReadingOutcome : Type
  | value (v : ℚ)
  | unreadable
deriving DecidableEq, Repr

/-- Modelled from the spec: a concrete recognition backend behind the
DigitReader capability interface (§4.2, §9): a detection step locating the
digit-bearing region, a recognition step returning a value with a
confidence, and a configured confidence floor. -/
structure DigitModel : Type where
  detect : Frame → RegionHint → Option Region
  recognize : Region → Frame → ℚ × ℚ
  confidenceFloor : ℚ

/-- Modelled from the spec: DigitReader §4.2 — detection then recognition;
either step failing, or a recognition below the confidence floor, yields
"unreadable". -/
def readDigits (m : DigitModel) (frame : Frame) (hint : RegionHint) : ReadingOutcome :=
  match m.detect frame hint with
  | none => ReadingOutcome.unreadable
  | some region =>
      let vc := m.recognize region frame
      if vc.2 < m.confidenceFloor then ReadingOutcome.unreadable
      else ReadingOutcome.value vc.1

/-- The results of `n` repeated invocations of DigitReader on the same
frame, hint and model. -/
def repeatedReads (n : ℕ) (m : DigitModel) (frame : Frame) (hint : RegionHint) :
    List ReadingOutcome :=
  (List.range n).map (fun _ => readDigits m frame hint)

/-- The initial per-channel state from `useState` in `App.tsx`:
`{ file: null, taskId: null, progress: 0 }`. -/
def initialTask : TaskState := { file := none, taskId := none, progress := 0 }

/-- The initial dashboard state assembled by the `useState` calls in
`App.tsx`. -/
def initialUI : UIState :=
  { meta := { prop := "", motor := "", esc := "", voltage := "" }
    fps := fpsDefault
    sessionId := none
    tasks := fun _ => initialTask
    tableRows := []
    graphs := []
    csvUrl := none }

/-- A poll response for a failed task: status "failed", progress 40, with
an error detail attached. -/
def failedSnapshot : PollResponse :=
  { status := some "failed", progress := some 40, error := some "decode error" }

/-- A poll response for a task still running at 50 percent. -/
def runningSnapshot : PollResponse :=
  { status := some "running", progress := some 50, error := none }

/-- A poll response for a completed task. -/
def doneSnapshot : PollResponse :=
  { status := some "done", progress := some 100, error := none }

/-- A successful session-result response fixture. -/
def okResultResponse : ResultResponse :=
  { ok := true, table := some ["r1"], graphs := some ["/g1.png"], csv_url := some "/x.csv" }

/-- The initial state after picking a file on the current channel. -/
def uiFixture : UIState := handleFilePick TabKey.current (some "v.mp4") initialUI

/-- C1: `pollTask` reads only `status` and `progress` from a poll
response; for the failed snapshot (status "failed", progress 40, error
"decode error") it stores progress 40, keeps polling and surfaces no error
detail — the failure is silently swallowed, contradicting the claim. -/
theorem claim_C1_failed_status_swallowed :
    (∀ p : PollResponse, (pollStep p).surfacedError = none) ∧
    pollStep failedSnapshot =
      { progress := 40, stopPolling := false, fetchResult := false, surfacedError := none } := by
  constructor
  · intro p
    rfl
  · decide

/-- C2: the FPS selector offers exactly the values 1..10, the state
defaults to 5 (which is reachable), and every reachable fps value lies in
[1,10] and passes the intake's sampling-rate validation, so InvalidConfig
is unreachable for UI-originated requests. -/
theorem claim_C2_ui_fps_valid :
    fpsOptions = [1, 2, 3, 4, 5, 6, 7, 8, 9, 10] ∧
    fpsDefault = 5 ∧
    FpsReachable fpsDefault ∧
    ∀ v : ℕ, FpsReachable v → 1 ≤ v ∧ v ≤ 10 ∧ validateSamplingRate v = none := by
  refine ⟨by decide, rfl, FpsReachable.start, ?_⟩
  intro v hv
  cases hv with
  | start => exact ⟨by decide, by decide, by decide⟩
  | select v h =>
      simp only [fpsOptions, List.mem_map, List.mem_range] at h
      obtain ⟨i, hi, rfl⟩ := h
      refine ⟨by omega, by omega, ?_⟩
      rw [validateSamplingRate, if_pos ⟨by omega, by omega⟩]

/-- Witness for C2 at the concrete reachable value 5. -/
theorem claim_C2_ui_fps_valid_witness :
    1 ≤ 5 ∧ 5 ≤ 10 ∧ validateSamplingRate 5 = none :=
  claim_C2_ui_fps_valid.2.2.2 5 FpsReachable.start

/-- C4 counterexample: with a stored session id that is the empty string,
the session id is known (`isSome`) yet the form omits the `session_id`
field, because `if (sessionId)` tests JavaScript truthiness, not
presence. -/
theorem claim_C4_session_truthiness_cex :
    ({ initialUI with sessionId := some "" } : UIState).sessionId.isSome = true ∧
    (buildForm { initialUI with sessionId := some "" } TabKey.current "v.mp4").session_id
      = none := by
  constructor
  · rfl
  · rfl

/-- C4 amended: the form carries `session_id` iff the stored session id is
a non-empty string (first upload, with no session id, omits it); a
successful start stores the server-returned session id, so a later upload
from the resulting state carries exactly that id whenever it is
non-empty. -/
theorem claim_C4_session_id_amended (st : UIState) (t : TabKey) (f : String)
    (resp : StartResponse) :
    (st.sessionId = none → (buildForm st t f).session_id = none) ∧
    (∀ s : String, st.sessionId = some s → s ≠ "" →
        (buildForm st t f).session_id = some s) ∧
    ((st.tasks t).file = some f →
        (startUploadStep t st (some resp)).1.sessionId = some resp.session_id ∧
        (startUploadStep t st (some resp)).2.request = some (buildForm st t f) ∧
        ∀ t' : TabKey, ∀ f' : String, resp.session_id ≠ "" →
          (buildForm (startUploadStep t st (some resp)).1 t' f').session_id
            = some resp.session_id) := by
  refine ⟨?_, ?_, ?_⟩
  · intro h
    simp [buildForm, h]
  · intro s hs hne
    simp [buildForm, hs, jsTruthy, hne]
  · intro hf
    refine ⟨?_, ?_, ?_⟩
    · simp [startUploadStep, hf]
    · simp [startUploadStep, hf]
    · intro t' f' hne
      simp [startUploadStep, hf, buildForm, jsTruthy, hne]

/-- Witness for C4 at concrete states: the initial state (no session id)
omits the field; a state holding session id "abc" includes it. -/
theorem claim_C4_session_id_amended_witness :
    (buildForm initialUI TabKey.current "v.mp4").session_id = none ∧
    (buildForm { initialUI with sessionId := some "abc" } TabKey.current "v.mp4").session_id
      = some "abc" :=
  ⟨(claim_C4_session_id_amended initialUI TabKey.current "v.mp4"
      { session_id := "s", task_id := "t" }).1 rfl,
   (claim_C4_session_id_amended { initialUI with sessionId := some "abc" } TabKey.current
      "v.mp4" { session_id := "s", task_id := "t" }).2.1 "abc" rfl (by decide)⟩

/-- C6: MetricsComputer equations — power is the product of voltage and
current when both are present, else null; efficiency is thrust over power
only for positive power, else null (no division by zero); the three
fixture rows of the spec evaluate as claimed, with 500/111 within 0.001 of
4.5045. -/
theorem claim_C6_metrics_computer :
    (∀ v c : ℚ, computePower (some v) (some c) = some (v * c)) ∧
    (∀ c : Option ℚ, computePower none c = none) ∧
    (∀ v : Option ℚ, computePower v none = none) ∧
    (∀ t p : ℚ, 0 < p → computeEfficiency (some t) (some p) = some (t / p)) ∧
    (∀ t p : ℚ, p ≤ 0 → computeEfficiency (some t) (some p) = none) ∧
    (∀ t : Option ℚ, computeEfficiency t none = none) ∧
    (∀ p : Option ℚ, computeEfficiency none p = none) ∧
    computePower (some (111 / 10)) (some 10) = some 111 ∧
    computeEfficiency (some 500) (some 0) = none ∧
    computeEfficiency (some 500) (some 111) = some (500 / 111) ∧
    |(500 : ℚ) / 111 - 45045 / 10000| < 1 / 1000 := by
  refine ⟨fun v c => rfl, fun c => rfl, ?_, ?_, ?_, ?_, fun p => rfl, ?_, ?_, ?_, ?_⟩
  · intro v
    cases v <;> rfl
  · intro t p hp
    rw [computeEfficiency, if_pos hp]
  · intro t p hp
    rw [computeEfficiency, if_neg (not_lt.mpr hp)]
  · intro t
    cases t <;> rfl
  · rw [computePower]
    norm_num
  · decide
  · rw [computeEfficiency, if_pos (by norm_num)]
  · rw [abs_sub_lt_iff]
    constructor <;> norm_num

/-- Witness for C6 at a concrete positive power. -/
theorem claim_C6_metrics_computer_witness :
    computeEfficiency (some 6) (some 2) = some (6 / 2) :=
  claim_C6_metrics_computer.2.2.2.1 6 2 (by norm_num)

/-- C9: with no file selected on channel `t`, `startUpload` alerts,
issues no network request and leaves the entire state — session id and all
channels — unchanged. -/
theorem claim_C9_missing_file_noop (st : UIState) (t : TabKey)
    (outcome : Option StartResponse) (h : (st.tasks t).file = none) :
    startUploadStep t st outcome = (st, { request := none, alerted := true }) := by
  rw [startUploadStep, h]

/-- Witness for C9 at the initial state, where no file is selected. -/
theorem claim_C9_missing_file_noop_witness :
    startUploadStep TabKey.current initialUI none
      = (initialUI, { request := none, alerted := true }) :=
  claim_C9_missing_file_noop initialUI TabKey.current none rfl

/-- C10: `handleFilePick t f` changes only channel `t`'s file (task id,
progress, the other channels and the session id are untouched), and a
successful `startUpload t` changes only channel `t`'s task id and
progress (its file and the other channels are untouched). -/
theorem claim_C10_frame_effects (st : UIState) (t u : TabKey) (f : Option String)
    (resp : StartResponse) (g : String) (hne : u ≠ t)
    (hf : (st.tasks t).file = some g) :
    (handleFilePick t f st).tasks u = st.tasks u ∧
    ((handleFilePick t f st).tasks t).taskId = (st.tasks t).taskId ∧
    ((handleFilePick t f st).tasks t).progress = (st.tasks t).progress ∧
    ((handleFilePick t f st).tasks t).file = f ∧
    (handleFilePick t f st).sessionId = st.sessionId ∧
    (startUploadStep t st (some resp)).1.tasks u = st.tasks u ∧
    ((startUploadStep t st (some resp)).1.tasks t).file = (st.tasks t).file ∧
    ((startUploadStep t st (some resp)).1.tasks t).taskId = some resp.task_id ∧
    ((startUploadStep t st (some resp)).1.tasks t).progress = 0 := by
  refine ⟨?_, ?_, ?_, ?_, rfl, ?_, ?_, ?_, ?_⟩ <;>
    simp [handleFilePick, startUploadStep, hf, hne]

/-- Witness for C10: picking a file on the current channel, then starting
its upload, leaves the thrust channel untouched. -/
theorem claim_C10_frame_effects_witness :
    (startUploadStep TabKey.current uiFixture
        (some { session_id := "s1", task_id := "t1" })).1.tasks TabKey.thrust
      = uiFixture.tasks TabKey.thrust :=
  (claim_C10_frame_effects uiFixture TabKey.current TabKey.thrust none
    { session_id := "s1", task_id := "t1" } "v.mp4" (by decide) rfl).2.2.2.2.2.1

/-- The stored-progress trace is the initial value followed by the
per-response values computed by `pollStep`. -/
theorem storedTrace_eq (init : ℚ) (ps : List PollResponse) :
    storedTrace init ps = init :: ps.map (fun p => (pollStep p).progress) := by
  induction ps generalizing init with
  | nil => rfl
  | cons p ps ih => rw [storedTrace, ih, List.map_cons]

/-- C3: the spec-modelled extractor progress is clamped to [0,100] and
monotone in the frames processed, and the client — which stores each
reported value verbatim, starting from 0 — therefore holds a trace that
stays in [0,100] and never decreases across successive poll responses. -/
theorem claim_C3_progress_clamped_monotone :
    (∀ total f g : ℕ, 0 < total → f ≤ g →
        0 ≤ specProgress total f ∧ specProgress total f ≤ 100 ∧
          specProgress total f ≤ specProgress total g) ∧
    (∀ ps : List PollResponse,
        (∀ p ∈ ps, 0 ≤ (pollStep p).progress ∧ (pollStep p).progress ≤ 100) →
        List.Chain' (· ≤ ·) (ps.map fun p => (pollStep p).progress) →
        (∀ v ∈ storedTrace 0 ps, 0 ≤ v ∧ v ≤ 100) ∧
        List.Chain' (· ≤ ·) (storedTrace 0 ps)) := by
  constructor
  · intro total f g htot hfg
    have htot' : (0 : ℚ) < (total : ℚ) := by exact_mod_cast htot
    refine ⟨le_min (by norm_num) (by positivity), min_le_left _ _, ?_⟩
    rw [specProgress, specProgress]
    refine min_le_min le_rfl ?_
    gcongr
  · intro ps hb hc
    rw [storedTrace_eq]
    constructor
    · intro v hv
      rcases List.mem_cons.mp hv with h0 | hmem
      · subst h0
        exact ⟨le_refl 0, by norm_num⟩
      · obtain ⟨p, hp, rfl⟩ := List.mem_map.mp hmem
        exact hb p hp
    · cases ps with
      | nil => simp
      | cons p ps =>
          rw [List.map_cons]
          exact List.chain'_cons.mpr
            ⟨(hb p (List.mem_cons_self p ps)).1, by simpa using hc⟩

/-- Witness for C3 at total 2 frames with 1 ≤ 2 processed, and a
single-response poll trace at 50 percent. -/
theorem claim_C3_progress_clamped_monotone_witness :
    (0 ≤ specProgress 2 1 ∧ specProgress 2 1 ≤ 100 ∧
      specProgress 2 1 ≤ specProgress 2 2) ∧
    ((∀ v ∈ storedTrace 0 [runningSnapshot], 0 ≤ v ∧ v ≤ 100) ∧
      List.Chain' (· ≤ ·) (storedTrace 0 [runningSnapshot])) :=
  ⟨claim_C3_progress_clamped_monotone.1 2 1 2 (by norm_num) (by norm_num),
   claim_C3_progress_clamped_monotone.2 [runningSnapshot] (by decide) (by simp)⟩

/-- C5: `pollTask` stops the interval and fetches the session result
exactly on the terminal test (status "done" or progress ≥ 100); over a
response stream it performs no fetch while responses stay non-terminal and
exactly one fetch once a terminal response arrives; a successful result
fetch populates the table rows, backend-prefixed graph URLs and csv URL
from the response, touching nothing else. -/
theorem claim_C5_terminal_fetch_once :
    (∀ p : PollResponse, isTerminal p = true →
        (pollStep p).stopPolling = true ∧ (pollStep p).fetchResult = true) ∧
    (∀ p : PollResponse, isTerminal p = false →
        (pollStep p).stopPolling = false ∧ (pollStep p).fetchResult = false) ∧
    (∀ p : PollResponse,
        isTerminal p = true ↔
          (p.status = some "done" ∨ ∃ v : ℚ, p.progress = some v ∧ 100 ≤ v)) ∧
    (∀ ps : List PollResponse, (∀ q ∈ ps, isTerminal q = false) →
        pollFetches ps = 0) ∧
    (∀ pre : List PollResponse, ∀ p : PollResponse, ∀ rest : List PollResponse,
        (∀ q ∈ pre, isTerminal q = false) → isTerminal p = true →
        pollFetches (pre ++ p :: rest) = 1) ∧
    (∀ st : UIState, ∀ resp : ResultResponse, resp.ok = true →
        (applyResult st resp).tableRows = resp.table.getD [] ∧
        (applyResult st resp).graphs
          = (resp.graphs.getD []).map (fun g => backendUrl ++ g) ∧
        (applyResult st resp).csvUrl
          = (match resp.csv_url with
             | some s => if jsTruthy s then some (backendUrl ++ s) else none
             | none => none) ∧
        (applyResult st resp).sessionId = st.sessionId ∧
        (applyResult st resp).tasks = st.tasks) := by
  refine ⟨?_, ?_, ?_, ?_, ?_, ?_⟩
  · intro p h
    exact ⟨h, h⟩
  · intro p h
    exact ⟨h, h⟩
  · intro p
    cases hp : p.progress <;> simp [isTerminal, hp, beq_iff_eq]
  · intro ps
    induction ps with
    | nil => intro _; rfl
    | cons q qs ih =>
        intro h
        have hq : (pollStep q).stopPolling = false := h q (List.mem_cons_self q qs)
        simp only [pollFetches, hq, Bool.false_eq_true, if_false]
        exact ih (fun r hr => h r (List.mem_cons_of_mem q hr))
  · intro pre p rest
    induction pre with
    | nil =>
        intro _ hp
        have hs : (pollStep p).stopPolling = true := hp
        have hf : (pollStep p).fetchResult = true := hp
        simp [pollFetches, hs, hf]
    | cons q qs ih =>
        intro hpre hp
        have hq : (pollStep q).stopPolling = false := hpre q (List.mem_cons_self q qs)
        rw [List.cons_append]
        simp only [pollFetches, hq, Bool.false_eq_true, if_false]
        exact ih (fun r hr => hpre r (List.mem_cons_of_mem q hr)) hp
  · intro st resp hok
    refine ⟨?_, ?_, ?_, ?_, ?_⟩ <;> simp [applyResult, hok]

/-- Witness for C5: a done snapshot stops polling; one running response
followed by a done response yields exactly one result fetch; the fixture
result populates the table rows. -/
theorem claim_C5_terminal_fetch_once_witness :
    (pollStep doneSnapshot).stopPolling = true ∧
    pollFetches [runningSnapshot, doneSnapshot] = 1 ∧
    (applyResult initialUI okResultResponse).tableRows = ["r1"] :=
  ⟨(claim_C5_terminal_fetch_once.1 doneSnapshot (by decide)).1,
   claim_C5_terminal_fetch_once.2.2.2.2.1 [runningSnapshot] doneSnapshot []
     (by decide) (by decide),
   (claim_C5_terminal_fetch_once.2.2.2.2.2 initialUI okResultResponse rfl).1⟩

/-- The length of the channel picked as reference grid is the running
maximum of the channel lengths. -/
theorem foldl_pick_length (ls : List (List Reading)) (acc : List Reading) :
    (ls.foldl (fun a l => if a.length < l.length then l else a) acc).length
      = ls.foldl (fun a l => max a l.length) acc.length := by
  induction ls generalizing acc with
  | nil => rfl
  | cons l ls ih =>
      simp only [List.foldl_cons]
      rw [ih]
      congr 1
      split
      next h => exact (max_eq_right (le_of_lt h)).symm
      next h => exact (max_eq_left (le_of_not_lt h)).symm

/-- The merged row count is the maximum of the three channel reading
counts (0 for an absent channel). -/
theorem mergeSeries_length (tol : ℚ) (cur thr rpm : Option (List Reading)) :
    (mergeSeries tol cur thr rpm).length
      = max (chanLen cur) (max (chanLen thr) (chanLen rpm)) := by
  simp only [mergeSeries, List.length_map, longestList]
  rw [foldl_pick_length]
  cases cur <;> cases thr <;> cases rpm <;>
    (simp [chanLists, chanLen]; try omega)

/-- C7: the merge of 0–3 channels yields exactly as many rows as the
longest channel has readings; a channel absent from the session is null in
every row; the 100/98/101 fixture merges into exactly 101 rows. -/
theorem claim_C7_merge_shape :
    (∀ tol : ℚ, ∀ cur thr rpm : Option (List Reading),
        (mergeSeries tol cur thr rpm).length
          = max (chanLen cur) (max (chanLen thr) (chanLen rpm))) ∧
    (∀ tol : ℚ, ∀ thr rpm : Option (List Reading),
        (mergeSeries tol none thr rpm).all (fun r => r.current.isNone) = true) ∧
    (∀ tol : ℚ, ∀ cur rpm : Option (List Reading),
        (mergeSeries tol cur none rpm).all (fun r => r.thrust.isNone) = true) ∧
    (∀ tol : ℚ, ∀ cur thr : Option (List Reading),
        (mergeSeries tol cur thr none).all (fun r => r.rpm.isNone) = true) ∧
    (mergeSeries (1 / 2) (some (mkChan 100)) (some (mkChan 98))
        (some (mkChan 101))).length = 101 := by
  refine ⟨mergeSeries_length, ?_, ?_, ?_, ?_⟩
  · intro tol thr rpm
    simp [mergeSeries, List.all_eq_true, sampleChan]
  · intro tol cur rpm
    simp [mergeSeries, List.all_eq_true, sampleChan]
  · intro tol cur thr
    simp [mergeSeries, List.all_eq_true, sampleChan]
  · rw [mergeSeries_length]
    have h100 : chanLen (some (mkChan 100)) = 100 := by
      simp [chanLen, mkChan]
    have h98 : chanLen (some (mkChan 98)) = 98 := by
      simp [chanLen, mkChan]
    have h101 : chanLen (some (mkChan 101)) = 101 := by
      simp [chanLen, mkChan]
    rw [h100, h98, h101]
    omega

/-- All `n` repetitions return the first call's value. -/
theorem range_map_const {α : Type} (n : ℕ) (a : α) :
    (List.range n).map (fun _ => a) = List.replicate n a := by
  induction n with
  | zero => rfl
  | succ n ih => simp [List.range_succ, ih, List.replicate_succ']

/-- C8: DigitReader is deterministic — `n` repeated invocations on the
same frame, region hint and model all return the single result of
`readDigits`, i.e. the run list is a constant replicate. -/
theorem claim_C8_digitreader_deterministic (n : ℕ) (m : DigitModel)
    (frame : Frame) (hint : RegionHint) :
    repeatedReads n m frame hint = List.replicate n (readDigits m frame hint) := by
  rw [repeatedReads]
  exact range_map_const n _
